import Mathlib

/-!
Shallow embedding of the girder curation plugin
(`src/plugins/curation/server/__init__.py`).

The plugin attaches a curation sub-document to a folder and exposes two
routes: `getCuration` (read the record merged over defaults) and
`setCuration` (update the `enabled` flag and/or the `status` field, firing
transition side effects: access-level rewrites, timeline appends and email
notifications).

Modelling conventions:
* The curation sub-document is `CurationRec`.  Dictionaries created by the
  plugin always carry the `enabled` and `status` keys (they come from
  `DEFAULTS`), so those fields are total; the three user-id fields and the
  `timeline` key may be absent and are `Option`s.
* `girder.constants.AccessType` values are the inductive `AccessLevel`
  (the code only compares them for equality and assigns them).
* `requireAdmin` raising `AccessException` is `Except.error
  CurationError.permissionDenied`; the embedding returns the error at the
  same program point as the Python `raise`, so no later mutation happens.
* `datetime.datetime.utcnow()` is an explicit `now : Nat` parameter.
* `_sendMail` is modelled as returning a `Notification` descriptor
  (recipient id, subject, template); `if not userId: return` is the
  `Option.none` case.
-/

namespace Curation

def CONSTRUCTION : String := "construction"

def REQUESTED : String := "requested"

def APPROVED : String := "approved"

inductive AccessLevel where
  | levelNone : AccessLevel
  | read : AccessLevel
  | write : AccessLevel
  | admin : AccessLevel
  deriving DecidableEq, Repr

structure AccessEntry where
  id : Nat
  level : AccessLevel
  deriving DecidableEq, Repr

structure User where
  id : Nat
  login : String
  admin : Bool
  deriving DecidableEq, Repr

structure TimelineEntry where
  userId : Nat
  userLogin : String
  text : String
  oldEnabled : Bool
  oldStatus : String
  enabled : Bool
  status : String
  timestamp : Nat
  deriving DecidableEq, Repr

structure CurationRec where
  enabled : Bool
  status : String
  enableUserId : Option Nat
  requestUserId : Option Nat
  reviewUserId : Option Nat
  timeline : Option (List TimelineEntry)
  deriving DecidableEq, Repr

structure Folder where
  name : String
  public : Bool
  accessUsers : List AccessEntry
  accessGroups : List AccessEntry
  curation : Option CurationRec
  deriving DecidableEq, Repr

structure Notification where
  recipient : Nat
  subject : String
  template : String
  deriving DecidableEq, Repr

inductive CurationError where
  | permissionDenied : CurationError
  deriving DecidableEq, Repr

/-- `dict(DEFAULTS)`: `{enabled: False, status: CONSTRUCTION}`; no other
keys are present. -/
def defaultCuration : CurationRec :=
  { enabled := false
    status := CONSTRUCTION
    enableUserId := none
    requestUserId := none
    reviewUserId := none
    timeline := none }

/-- The parameters of a `PUT …/curation` request; either, both or neither
may be present. -/
structure SetCurationParams where
  enabled : Option Bool
  status : Option String
  deriving DecidableEq, Repr

/-- The state produced by one `setCuration` call: the saved folder, the
curation sub-document that is returned to the client, and the emails sent. -/
structure EngineResult where
  folder : Folder
  curation : CurationRec
  notifications : List Notification
  deriving DecidableEq, Repr

/-- `getCuration`: `result = dict(DEFAULTS); result[TIMELINE] = [];
result.update(folder.get(CURATION, {}))`.  Stored keys override the
defaults; the returned record always carries a timeline list. -/
def getCuration (folder : Folder) : CurationRec :=
  let stored := folder.curation.getD defaultCuration
  { stored with timeline := some (stored.timeline.getD []) }

/-- The body of `_makeReadOnly` for one access document:
`if doc['level'] == AccessType.WRITE: doc['level'] = AccessType.READ`. -/
def makeReadOnlyEntry (e : AccessEntry) : AccessEntry :=
  if e.level = AccessLevel.write then { e with level := AccessLevel.read } else e

/-- The body of `_makeWriteable` for one access document:
`if doc['level'] == AccessType.READ: doc['level'] = AccessType.WRITE`. -/
def makeWriteableEntry (e : AccessEntry) : AccessEntry :=
  if e.level = AccessLevel.read then { e with level := AccessLevel.write } else e

/-- `_makeReadOnly`: scan-and-flip over `access['users'] + access['groups']`. -/
def makeReadOnly (folder : Folder) : Folder :=
  { folder with
    accessUsers := folder.accessUsers.map makeReadOnlyEntry
    accessGroups := folder.accessGroups.map makeReadOnlyEntry }

/-- `_makeWriteable`: scan-and-flip over `access['users'] + access['groups']`. -/
def makeWriteable (folder : Folder) : Folder :=
  { folder with
    accessUsers := folder.accessUsers.map makeWriteableEntry
    accessGroups := folder.accessGroups.map makeWriteableEntry }

/-- `_sendMail(folder, userId, subject, template)`: sends nothing when
`userId` is absent, otherwise one email to that user. -/
def sendMail (userId : Option Nat) (subject template : String) : List Notification :=
  match userId with
  | none => []
  | some u => [{ recipient := u, subject := subject, template := template }]

/-- The timeline entry built by `_addTimeline`: actor data, the transition
text, the pre-call snapshot (`oldCuration`) and the current (post-update)
`enabled`/`status`, and the timestamp. -/
def mkEntry (u : User) (now : Nat) (oldCur cur : CurationRec) (text : String) :
    TimelineEntry :=
  { userId := u.id
    userLogin := u.login
    text := text
    oldEnabled := oldCur.enabled
    oldStatus := oldCur.status
    enabled := cur.enabled
    status := cur.status
    timestamp := now }

/-- `_addTimeline(oldCuration, curation, text)`:
`curation.setdefault(TIMELINE, []).append(data)`. -/
def addTimeline (u : User) (now : Nat) (oldCur cur : CurationRec) (text : String) :
    CurationRec :=
  { cur with timeline := some (cur.timeline.getD [] ++ [mkEntry u now oldCur cur text]) }

/-- Lines 100–150 of `setCuration`: the six conditional transition blocks,
run in source order after the `enabled` and `status` fields have been
updated.  `oldCur` is the snapshot taken at line 81 (`dict(curation)`),
`cur` the updated record. -/
def applyTransitions (u : User) (now : Nat) (folder0 : Folder)
    (oldCur cur : CurationRec) : EngineResult :=
  let oldEnabled := oldCur.enabled
  let enabled := cur.enabled
  let oldStatus := oldCur.status
  let status := cur.status
  -- admin enabling curation
  let s1 : EngineResult :=
    if enabled ∧ ¬ oldEnabled then
      { folder := { folder0 with public := false }
        curation := addTimeline u now oldCur
          { cur with enableUserId := some u.id } "enabled curation"
        notifications := [] }
    else { folder := folder0, curation := cur, notifications := [] }
  -- admin disabling curation
  let s2 : EngineResult :=
    if ¬ enabled ∧ oldEnabled then
      { s1 with curation := addTimeline u now oldCur s1.curation "disabled curation" }
    else s1
  -- user requesting approval
  let s3 : EngineResult :=
    if enabled ∧ oldStatus = CONSTRUCTION ∧ status = REQUESTED then
      let c := { s2.curation with requestUserId := some u.id }
      { folder := makeReadOnly s2.folder
        curation := addTimeline u now oldCur c "requested approval"
        notifications := s2.notifications ++
          sendMail c.enableUserId ("REQUEST FOR APPROVAL: " ++ s2.folder.name)
            "curation.requested.mako" }
    else s2
  -- admin approving request
  let s4 : EngineResult :=
    if enabled ∧ oldStatus = REQUESTED ∧ status = APPROVED then
      let c := { s3.curation with reviewUserId := some u.id }
      { folder := { s3.folder with public := true }
        curation := addTimeline u now oldCur c "approved request"
        notifications := s3.notifications ++
          sendMail c.requestUserId ("APPROVED: " ++ s3.folder.name)
            "curation.approved.mako" }
    else s3
  -- admin rejecting request
  let s5 : EngineResult :=
    if enabled ∧ oldStatus = REQUESTED ∧ status = CONSTRUCTION then
      let c := { s4.curation with reviewUserId := some u.id }
      { folder := makeWriteable s4.folder
        curation := addTimeline u now oldCur c "rejected request"
        notifications := s4.notifications ++
          sendMail c.requestUserId ("REJECTED: " ++ s4.folder.name)
            "curation.rejected.mako" }
    else s4
  -- admin reopening folder
  let s6 : EngineResult :=
    if enabled ∧ oldStatus = APPROVED ∧ status = CONSTRUCTION then
      { folder := makeWriteable { s5.folder with public := false }
        curation := addTimeline u now oldCur s5.curation "reopened folder"
        notifications := s5.notifications }
    else s5
  s6

/-- Lines 83–88: `if ENABLED in params: self.requireAdmin(user);
curation[ENABLED] = self.boolParam(ENABLED, params)`.  The `raise` of
`requireAdmin` happens before the write. -/
def updateEnabled (u : User) (pe : Option Bool) (cur : CurationRec) :
    Except CurationError CurationRec :=
  match pe with
  | some b =>
    if u.admin then Except.ok { cur with enabled := b }
    else Except.error CurationError.permissionDenied
  | none => Except.ok cur

/-- Lines 90–97: `if STATUS in params:` regular users can only do the
`construction -> requested` transition, anything else calls
`requireAdmin`; then `curation[STATUS] = params[STATUS]` (the raise, when
it happens, precedes the write). -/
def updateStatus (u : User) (ps : Option String) (cur : CurationRec) :
    Except CurationError CurationRec :=
  match ps with
  | some s =>
    if cur.status = CONSTRUCTION ∧ s = REQUESTED then
      Except.ok { cur with status := s }
    else if u.admin then Except.ok { cur with status := s }
    else Except.error CurationError.permissionDenied
  | none => Except.ok cur

/-- Lines 151–152: `self.model('folder').save(folder); return curation` —
the saved folder embeds the mutated curation sub-document (`folder[CURATION]`
and `curation` are the same dictionary). -/
def saveResult (a : EngineResult) : EngineResult :=
  { a with folder := { a.folder with curation := some a.curation } }

/-- `setCuration(folder, params)`.  Lazily creates the record from
`DEFAULTS`, snapshots it (line 81), applies the `enabled` update (admin
only), the `status` update (non-admins limited to
`construction → requested`), then runs the transition blocks and saves the
folder.  A `requireAdmin` failure aborts at its program point with
`permissionDenied`, so no later mutation happens. -/
def setCuration (folder : Folder) (u : User) (params : SetCurationParams)
    (now : Nat) : Except CurationError EngineResult :=
  let cur0 := folder.curation.getD defaultCuration
  match updateEnabled u params.enabled cur0 with
  | Except.error e => Except.error e
  | Except.ok cur1 =>
    match updateStatus u params.status cur1 with
    | Except.error e => Except.error e
    | Except.ok cur2 =>
      Except.ok (saveResult (applyTransitions u now folder cur0 cur2))

/-- The texts of the transition blocks that fire for a given pre/post
`enabled`/`status` pair, in source order.  Used to characterise the
timeline entries appended by one call. -/
def firedTexts (oldEnabled enabled : Bool) (oldStatus status : String) :
    List String :=
  (if enabled ∧ ¬ oldEnabled then ["enabled curation"] else []) ++
  (if ¬ enabled ∧ oldEnabled then ["disabled curation"] else []) ++
  (if enabled ∧ oldStatus = CONSTRUCTION ∧ status = REQUESTED then
    ["requested approval"] else []) ++
  (if enabled ∧ oldStatus = REQUESTED ∧ status = APPROVED then
    ["approved request"] else []) ++
  (if enabled ∧ oldStatus = REQUESTED ∧ status = CONSTRUCTION then
    ["rejected request"] else []) ++
  (if enabled ∧ oldStatus = APPROVED ∧ status = CONSTRUCTION then
    ["reopened folder"] else [])

/-- Whether a `setCuration` call returned without raising. -/
def succeeds {α : Type} (x : Except CurationError α) : Bool :=
  match x with
  | Except.ok _ => true
  | Except.error _ => false

/-- The stored status field of a successful call's result. -/
def okStatus (x : Except CurationError EngineResult) : Option String :=
  match x with
  | Except.ok r => some r.curation.status
  | Except.error _ => none

/-- A throwaway result used as the default of `okOrDefault`. -/
def emptyResult : EngineResult :=
  { folder := { name := "", public := false, accessUsers := [],
                accessGroups := [], curation := none }
    curation := defaultCuration
    notifications := [] }

/-- The result of a successful call (used to state concrete witnesses). -/
def okOrDefault (x : Except CurationError EngineResult) : EngineResult :=
  match x with
  | Except.ok r => r
  | Except.error _ => emptyResult

/-! Concrete fixtures used by witnesses and counterexamples. -/

/-- A non-admin contributor. -/
def exUserBob : User := { id := 7, login := "bob", admin := false }

/-- An administrator. -/
def exUserAlice : User := { id := 8, login := "alice", admin := true }

/-- A record with curation disabled, in construction. -/
def exRecDisabled : CurationRec :=
  { enabled := false, status := CONSTRUCTION, enableUserId := none
    requestUserId := none, reviewUserId := none, timeline := some [] }

/-- A record with curation enabled by user 8, in construction. -/
def exRecEnabled : CurationRec :=
  { enabled := true, status := CONSTRUCTION, enableUserId := some 8
    requestUserId := none, reviewUserId := none, timeline := some [] }

/-- A record with a pending approval request from user 7. -/
def exRecRequested : CurationRec :=
  { enabled := true, status := REQUESTED, enableUserId := some 8
    requestUserId := some 7, reviewUserId := none, timeline := some [] }

/-- A folder whose curation is disabled and in construction. -/
def exFolderDisabled : Folder :=
  { name := "f", public := true
    accessUsers := [{ id := 1, level := AccessLevel.write },
                    { id := 2, level := AccessLevel.read }]
    accessGroups := [{ id := 3, level := AccessLevel.write }]
    curation := some exRecDisabled }

/-- A folder whose curation is enabled, in construction. -/
def exFolderEnabled : Folder := { exFolderDisabled with curation := some exRecEnabled }

/-- A folder with a pending request; its write entries were already
downgraded to read by the request. -/
def exFolderRequested : Folder :=
  { name := "f", public := false
    accessUsers := [{ id := 1, level := AccessLevel.read },
                    { id := 2, level := AccessLevel.read }]
    accessGroups := [{ id := 3, level := AccessLevel.read }]
    curation := some exRecRequested }

/-- A folder with no curation data at all. -/
def exFolderBare : Folder :=
  { name := "g", public := false, accessUsers := [], accessGroups := []
    curation := none }

/-! Distinctness of the three status strings. -/

@[simp] theorem construction_ne_requested : CONSTRUCTION ≠ REQUESTED := by decide

@[simp] theorem construction_ne_approved : CONSTRUCTION ≠ APPROVED := by decide

@[simp] theorem requested_ne_construction : REQUESTED ≠ CONSTRUCTION := by decide

@[simp] theorem requested_ne_approved : REQUESTED ≠ APPROVED := by decide

@[simp] theorem approved_ne_construction : APPROVED ≠ CONSTRUCTION := by decide

@[simp] theorem approved_ne_requested : APPROVED ≠ REQUESTED := by decide

/-! Structural lemmas about the transition blocks. -/

set_option maxHeartbeats 1000000 in
theorem applyTransitions_curation_enabled (u : User) (n : Nat) (f : Folder)
    (oldCur cur : CurationRec) :
    (applyTransitions u n f oldCur cur).curation.enabled = cur.enabled := by
  simp only [applyTransitions]
  split_ifs <;> simp [addTimeline]

set_option maxHeartbeats 1000000 in
theorem applyTransitions_curation_status (u : User) (n : Nat) (f : Folder)
    (oldCur cur : CurationRec) :
    (applyTransitions u n f oldCur cur).curation.status = cur.status := by
  simp only [applyTransitions]
  split_ifs <;> simp [addTimeline]

set_option maxHeartbeats 4000000 in
theorem applyTransitions_timeline (u : User) (n : Nat) (f : Folder)
    (oldCur cur : CurationRec) :
    (applyTransitions u n f oldCur cur).curation.timeline.getD [] =
      cur.timeline.getD [] ++
        (firedTexts oldCur.enabled cur.enabled oldCur.status cur.status).map
          (mkEntry u n oldCur cur) := by
  simp only [applyTransitions, firedTexts]
  split_ifs <;> simp [addTimeline, mkEntry]

set_option maxHeartbeats 1000000 in
theorem applyTransitions_self (u : User) (n : Nat) (f : Folder)
    (cur : CurationRec) :
    applyTransitions u n f cur cur =
      { folder := f, curation := cur, notifications := [] } := by
  have h1 : ¬ (cur.enabled = true ∧ ¬ cur.enabled = true) := by simp
  have h2 : ¬ (¬ cur.enabled = true ∧ cur.enabled = true) := by simp
  have h3 : ¬ (cur.enabled = true ∧ cur.status = CONSTRUCTION ∧
      cur.status = REQUESTED) := by
    rintro ⟨-, a, b⟩; exact construction_ne_requested (a.symm.trans b)
  have h4 : ¬ (cur.enabled = true ∧ cur.status = REQUESTED ∧
      cur.status = APPROVED) := by
    rintro ⟨-, a, b⟩; exact requested_ne_approved (a.symm.trans b)
  have h5 : ¬ (cur.enabled = true ∧ cur.status = REQUESTED ∧
      cur.status = CONSTRUCTION) := by
    rintro ⟨-, a, b⟩; exact requested_ne_construction (a.symm.trans b)
  have h6 : ¬ (cur.enabled = true ∧ cur.status = APPROVED ∧
      cur.status = CONSTRUCTION) := by
    rintro ⟨-, a, b⟩; exact approved_ne_construction (a.symm.trans b)
  simp only [applyTransitions, if_neg h1, if_neg h2, if_neg h3, if_neg h4,
    if_neg h5, if_neg h6]

/-! Inversion lemmas for the two field updates and for `setCuration`. -/

theorem updateEnabled_ok_none (u : User) (cur cur1 : CurationRec)
    (h : updateEnabled u none cur = Except.ok cur1) : cur1 = cur := by
  simpa [updateEnabled] using h.symm

theorem updateEnabled_ok_fields (u : User) (pe : Option Bool)
    (cur cur1 : CurationRec) (h : updateEnabled u pe cur = Except.ok cur1) :
    cur1.status = cur.status ∧ cur1.timeline = cur.timeline ∧
      cur1.enableUserId = cur.enableUserId ∧
      cur1.requestUserId = cur.requestUserId ∧
      cur1.reviewUserId = cur.reviewUserId := by
  cases pe with
  | none => simp [updateEnabled] at h; simp [← h]
  | some b =>
    simp only [updateEnabled] at h
    split_ifs at h
    · simp at h; simp [← h]

theorem updateStatus_ok_none (u : User) (cur cur1 : CurationRec)
    (h : updateStatus u none cur = Except.ok cur1) : cur1 = cur := by
  simpa [updateStatus] using h.symm

theorem updateStatus_ok_some (u : User) (s : String) (cur cur2 : CurationRec)
    (h : updateStatus u (some s) cur = Except.ok cur2) :
    cur2 = { cur with status := s } := by
  simp only [updateStatus] at h
  split_ifs at h <;> simp at h <;> simp [← h]

theorem setCuration_ok_elim (folder : Folder) (u : User)
    (params : SetCurationParams) (now : Nat) (r : EngineResult)
    (h : setCuration folder u params now = Except.ok r) :
    ∃ cur1 cur2,
      updateEnabled u params.enabled (folder.curation.getD defaultCuration) =
        Except.ok cur1 ∧
      updateStatus u params.status cur1 = Except.ok cur2 ∧
      r = saveResult
        (applyTransitions u now folder (folder.curation.getD defaultCuration)
          cur2) := by
  simp only [setCuration] at h
  split at h
  · simp at h
  · rename_i cur1 heq1
    split at h
    · simp at h
    · rename_i cur2 heq2
      injection h with h
      exact ⟨cur1, cur2, heq1, heq2, h.symm⟩

theorem setCuration_ok_save (folder : Folder) (u : User)
    (params : SetCurationParams) (now : Nat) (r : EngineResult)
    (h : setCuration folder u params now = Except.ok r) :
    r.folder.curation = some r.curation := by
  obtain ⟨cur1, cur2, _, _, hr⟩ := setCuration_ok_elim folder u params now r h
  subst hr
  simp [saveResult]

theorem setCuration_ok_status (folder : Folder) (u : User) (s : String)
    (pe : Option Bool) (now : Nat) (r : EngineResult)
    (h : setCuration folder u ⟨pe, some s⟩ now = Except.ok r) :
    r.curation.status = s := by
  obtain ⟨cur1, cur2, h1, h2, hr⟩ := setCuration_ok_elim folder u ⟨pe, some s⟩ now r h
  subst hr
  have hc2 := updateStatus_ok_some u s cur1 cur2 h2
  subst hc2
  simp [saveResult, applyTransitions_curation_status]

theorem folder_set_curation_self (f : Folder) (c : CurationRec)
    (h : f.curation = some c) : { f with curation := some c } = f := by
  cases f
  simp_all

theorem setCuration_timeline_ok (folder : Folder) (u : User)
    (params : SetCurationParams) (now : Nat) (r : EngineResult)
    (h : setCuration folder u params now = Except.ok r) :
    r.curation.timeline.getD [] =
      (folder.curation.getD defaultCuration).timeline.getD [] ++
        (firedTexts (folder.curation.getD defaultCuration).enabled
            r.curation.enabled
            (folder.curation.getD defaultCuration).status
            r.curation.status).map
          (mkEntry u now (folder.curation.getD defaultCuration) r.curation) := by
  obtain ⟨cur1, cur2, h1, h2, hr⟩ := setCuration_ok_elim folder u params now r h
  have hf1 := updateEnabled_ok_fields u params.enabled _ cur1 h1
  have hc2time : cur2.timeline = (folder.curation.getD defaultCuration).timeline := by
    cases hps : params.status with
    | none =>
      rw [hps] at h2
      have hh := updateStatus_ok_none u cur1 cur2 h2
      subst hh
      exact hf1.2.1
    | some s =>
      rw [hps] at h2
      have hh := updateStatus_ok_some u s cur1 cur2 h2
      subst hh
      exact hf1.2.1
  have hrc : r.curation =
      (applyTransitions u now folder (folder.curation.getD defaultCuration)
        cur2).curation := by
    subst hr; simp [saveResult]
  have hen : r.curation.enabled = cur2.enabled := by
    rw [hrc]
    exact applyTransitions_curation_enabled u now folder
      (folder.curation.getD defaultCuration) cur2
  have hst : r.curation.status = cur2.status := by
    rw [hrc]
    exact applyTransitions_curation_status u now folder
      (folder.curation.getD defaultCuration) cur2
  have hmap :
      List.map (mkEntry u now (folder.curation.getD defaultCuration) r.curation)
        (firedTexts (folder.curation.getD defaultCuration).enabled cur2.enabled
          (folder.curation.getD defaultCuration).status cur2.status) =
      List.map (mkEntry u now (folder.curation.getD defaultCuration) cur2)
        (firedTexts (folder.curation.getD defaultCuration).enabled cur2.enabled
          (folder.curation.getD defaultCuration).status cur2.status) :=
    List.map_congr_left (fun t _ => by simp [mkEntry, hen, hst])
  rw [hen, hst, hmap, ← hc2time, hrc]
  exact applyTransitions_timeline u now folder
    (folder.curation.getD defaultCuration) cur2

/-! The claims. -/

/-- C1, counterexample: the status authorization check (line 94) never looks
at `enabled`.  A non-admin on a record with curation *disabled* and status
`construction` asks for `requested`: the claim says this fails with
`PermissionDenied`, but the call succeeds and stores the new status. -/
theorem c1_counterexample :
    exUserBob.admin = false ∧
    exRecDisabled.enabled = false ∧
    exRecDisabled.status = CONSTRUCTION ∧
    exFolderDisabled.curation = some exRecDisabled ∧
    succeeds (setCuration exFolderDisabled exUserBob
      { enabled := none, status := some REQUESTED } 0) = true ∧
    okStatus (setCuration exFolderDisabled exUserBob
      { enabled := none, status := some REQUESTED } 0) = some REQUESTED := by
  decide

/-- C1, amended: a non-admin's status-only call fails with
`PermissionDenied` exactly when it is not the `construction → requested`
transition; whether curation is enabled plays no role in the check. -/
theorem c1_nonadmin_status_auth (folder : Folder) (u : User) (s : String)
    (now : Nat) (hadm : u.admin = false) :
    setCuration folder u { enabled := none, status := some s } now =
        Except.error CurationError.permissionDenied ↔
      ¬ ((folder.curation.getD defaultCuration).status = CONSTRUCTION ∧
        s = REQUESTED) := by
  simp only [setCuration, updateEnabled, updateStatus]
  split_ifs with hcond hadm2
  · simp [hcond]
  · simp [hadm] at hadm2
  · simp [hcond]

/-- Witness for `c1_nonadmin_status_auth` at a concrete non-admin call. -/
theorem c1_nonadmin_status_auth_witness :
    (setCuration exFolderDisabled exUserBob
        { enabled := none, status := some REQUESTED } 0 =
        Except.error CurationError.permissionDenied ↔
      ¬ ((exFolderDisabled.curation.getD defaultCuration).status =
          CONSTRUCTION ∧ REQUESTED = REQUESTED)) :=
  c1_nonadmin_status_auth exFolderDisabled exUserBob REQUESTED 0 rfl

/-- C2, counterexample: there is no status-value validation anywhere in
`setCuration`.  An admin submits the unrecognized value `"bogus"`; the
claim says the call is rejected with `InvalidTransition`, but it succeeds
and the stored status becomes `"bogus"`. -/
theorem c2_counterexample :
    exUserAlice.admin = true ∧
    ("bogus" : String) ≠ CONSTRUCTION ∧
    ("bogus" : String) ≠ REQUESTED ∧
    ("bogus" : String) ≠ APPROVED ∧
    okStatus (setCuration exFolderDisabled exUserAlice
      { enabled := none, status := some "bogus" } 0) = some "bogus" := by
  decide

/-- C2, amended: `setCuration` validates nothing about the status value; an
admin's call with any string succeeds and stores exactly that string, so
the stored status field is not confined to the three recognized states. -/
theorem c2_no_status_validation (folder : Folder) (u : User) (s : String)
    (now : Nat) (hadm : u.admin = true) :
    okStatus (setCuration folder u { enabled := none, status := some s } now) =
      some s := by
  simp only [setCuration, updateEnabled, updateStatus]
  split_ifs with hcond
  · simp [okStatus, saveResult, applyTransitions_curation_status]
  · simp [hadm, okStatus, saveResult, applyTransitions_curation_status]

/-- Witness for `c2_no_status_validation` at the unrecognized value. -/
theorem c2_no_status_validation_witness :
    okStatus (setCuration exFolderDisabled exUserAlice
      { enabled := none, status := some "bogus" } 0) = some "bogus" :=
  c2_no_status_validation exFolderDisabled exUserAlice "bogus" 0 rfl

/-- C5: a non-admin call carrying an `enabled` parameter (in particular
`enabled:true`) fails with `PermissionDenied` no matter what else is in the
request; the embedding raises at line 86, before any field is written, so
the stored record is untouched. -/
theorem c5_nonadmin_enabled_denied (folder : Folder) (u : User)
    (ps : Option String) (now : Nat) (hadm : u.admin = false) :
    setCuration folder u { enabled := some true, status := ps } now =
      Except.error CurationError.permissionDenied := by
  simp [setCuration, updateEnabled, hadm]

/-- Witness for `c5_nonadmin_enabled_denied`. -/
theorem c5_nonadmin_enabled_denied_witness :
    setCuration exFolderDisabled exUserBob
      { enabled := some true, status := none } 0 =
      Except.error CurationError.permissionDenied :=
  c5_nonadmin_enabled_denied exFolderDisabled exUserBob none 0 rfl

/-- C9: `getCuration` returns the stored record merged over the defaults
`{enabled:false, status:construction, timeline:[]}`; with no stored record
it returns exactly the default record. -/
theorem c9_getCuration_merged (folder : Folder) :
    (folder.curation = none →
      getCuration folder =
        { enabled := false, status := CONSTRUCTION, enableUserId := none,
          requestUserId := none, reviewUserId := none, timeline := some [] }) ∧
    (∀ rec, folder.curation = some rec →
      getCuration folder = { rec with timeline := some (rec.timeline.getD []) }) := by
  constructor
  · intro h
    simp [getCuration, h, defaultCuration]
  · intro rec h
    simp [getCuration, h]

/-- Witness for `c9_getCuration_merged` on a folder with no curation data. -/
theorem c9_getCuration_merged_witness :
    getCuration exFolderBare =
      { enabled := false, status := CONSTRUCTION, enableUserId := none,
        requestUserId := none, reviewUserId := none, timeline := some [] } :=
  (c9_getCuration_merged exFolderBare).1 rfl

/-- C3, counterexample: an admin changes the stored status from
`construction` to `approved` while curation is disabled.  The record
changes, but no transition block runs (they all require `enabled`), so no
timeline entry is appended — the claim requires at least one. -/
theorem c3_counterexample :
    exRecDisabled.enabled = false ∧
    exRecDisabled.status = CONSTRUCTION ∧
    exRecDisabled.timeline = some [] ∧
    exFolderDisabled.curation = some exRecDisabled ∧
    okStatus (setCuration exFolderDisabled exUserAlice
      { enabled := none, status := some APPROVED } 0) = some APPROVED ∧
    (okOrDefault (setCuration exFolderDisabled exUserAlice
      { enabled := none, status := some APPROVED } 0)).curation.timeline =
      some [] := by
  decide

/-- C3, amended: every successful call keeps the existing timeline as a
prefix (entries are never edited or removed), and it appends entries
exactly when one of the six recognized transitions fires; in particular a
status change while curation is disabled, or along an unrecognized edge,
appends nothing. -/
theorem c3_timeline_append_iff_fired (folder : Folder) (u : User)
    (params : SetCurationParams) (now : Nat) (r : EngineResult)
    (h : setCuration folder u params now = Except.ok r) :
    List.IsPrefix ((folder.curation.getD defaultCuration).timeline.getD [])
        (r.curation.timeline.getD []) ∧
    (r.curation.timeline.getD [] =
        (folder.curation.getD defaultCuration).timeline.getD [] ↔
      firedTexts (folder.curation.getD defaultCuration).enabled
        r.curation.enabled (folder.curation.getD defaultCuration).status
        r.curation.status = []) := by
  have ht := setCuration_timeline_ok folder u params now r h
  constructor
  · exact ⟨_, ht.symm⟩
  · rw [ht]
    constructor
    · intro heq
      have hlen := congrArg List.length heq
      simp only [List.length_append, List.length_map, Nat.add_right_eq_self,
        List.length_eq_zero] at hlen
      exact hlen
    · intro hfe
      simp [hfe]

/-- Witness for `c3_timeline_append_iff_fired` at a concrete successful
call (the C3 counterexample call itself). -/
theorem c3_timeline_append_iff_fired_witness :
    List.IsPrefix
        ((exFolderDisabled.curation.getD defaultCuration).timeline.getD [])
        ((okOrDefault (setCuration exFolderDisabled exUserAlice
          { enabled := none, status := some APPROVED } 0)).curation.timeline.getD []) ∧
    ((okOrDefault (setCuration exFolderDisabled exUserAlice
          { enabled := none, status := some APPROVED } 0)).curation.timeline.getD [] =
        (exFolderDisabled.curation.getD defaultCuration).timeline.getD [] ↔
      firedTexts (exFolderDisabled.curation.getD defaultCuration).enabled
        (okOrDefault (setCuration exFolderDisabled exUserAlice
          { enabled := none, status := some APPROVED } 0)).curation.enabled
        (exFolderDisabled.curation.getD defaultCuration).status
        (okOrDefault (setCuration exFolderDisabled exUserAlice
          { enabled := none, status := some APPROVED } 0)).curation.status = []) :=
  c3_timeline_append_iff_fired exFolderDisabled exUserAlice
    { enabled := none, status := some APPROVED } 0 _ rfl

/-- C6: a successful call appends exactly one timeline entry per fired
transition — the new timeline is the old one followed by one entry per
element of `firedTexts` — and every appended entry records the pre-call
`enabled`/`status` in its `oldEnabled`/`oldStatus` fields and the post-call
values in its `enabled`/`status` fields. -/
theorem c6_timeline_snapshot_diff (folder : Folder) (u : User)
    (params : SetCurationParams) (now : Nat) (r : EngineResult)
    (h : setCuration folder u params now = Except.ok r) :
    r.curation.timeline.getD [] =
      (folder.curation.getD defaultCuration).timeline.getD [] ++
        (firedTexts (folder.curation.getD defaultCuration).enabled
            r.curation.enabled (folder.curation.getD defaultCuration).status
            r.curation.status).map
          (mkEntry u now (folder.curation.getD defaultCuration) r.curation) ∧
    ∀ e ∈ (firedTexts (folder.curation.getD defaultCuration).enabled
            r.curation.enabled (folder.curation.getD defaultCuration).status
            r.curation.status).map
          (mkEntry u now (folder.curation.getD defaultCuration) r.curation),
      e.oldEnabled = (folder.curation.getD defaultCuration).enabled ∧
      e.oldStatus = (folder.curation.getD defaultCuration).status ∧
      e.enabled = r.curation.enabled ∧
      e.status = r.curation.status := by
  refine ⟨setCuration_timeline_ok folder u params now r h, ?_⟩
  intro e he
  simp only [List.mem_map] at he
  obtain ⟨t, -, rfl⟩ := he
  simp [mkEntry]

/-- Witness for `c6_timeline_snapshot_diff` at a concrete request-approval
call. -/
theorem c6_timeline_snapshot_diff_witness :
    (okOrDefault (setCuration exFolderEnabled exUserBob
        { enabled := none, status := some REQUESTED } 5)).curation.timeline.getD [] =
      (exFolderEnabled.curation.getD defaultCuration).timeline.getD [] ++
        (firedTexts (exFolderEnabled.curation.getD defaultCuration).enabled
            (okOrDefault (setCuration exFolderEnabled exUserBob
              { enabled := none, status := some REQUESTED } 5)).curation.enabled
            (exFolderEnabled.curation.getD defaultCuration).status
            (okOrDefault (setCuration exFolderEnabled exUserBob
              { enabled := none, status := some REQUESTED } 5)).curation.status).map
          (mkEntry exUserBob 5 (exFolderEnabled.curation.getD defaultCuration)
            (okOrDefault (setCuration exFolderEnabled exUserBob
              { enabled := none, status := some REQUESTED } 5)).curation) ∧
    ∀ e ∈ (firedTexts (exFolderEnabled.curation.getD defaultCuration).enabled
            (okOrDefault (setCuration exFolderEnabled exUserBob
              { enabled := none, status := some REQUESTED } 5)).curation.enabled
            (exFolderEnabled.curation.getD defaultCuration).status
            (okOrDefault (setCuration exFolderEnabled exUserBob
              { enabled := none, status := some REQUESTED } 5)).curation.status).map
          (mkEntry exUserBob 5 (exFolderEnabled.curation.getD defaultCuration)
            (okOrDefault (setCuration exFolderEnabled exUserBob
              { enabled := none, status := some REQUESTED } 5)).curation),
      e.oldEnabled = (exFolderEnabled.curation.getD defaultCuration).enabled ∧
      e.oldStatus = (exFolderEnabled.curation.getD defaultCuration).status ∧
      e.enabled = (okOrDefault (setCuration exFolderEnabled exUserBob
        { enabled := none, status := some REQUESTED } 5)).curation.enabled ∧
      e.status = (okOrDefault (setCuration exFolderEnabled exUserBob
        { enabled := none, status := some REQUESTED } 5)).curation.status :=
  c6_timeline_snapshot_diff exFolderEnabled exUserBob
    { enabled := none, status := some REQUESTED } 5 _ rfl

/-- C4: on an enabled record in construction with a recorded enabler, any
actor's `status:requested` call sets `requestUserId` to the actor,
downgrades every write-level access entry (users and groups) to read,
appends exactly one `requested approval` timeline entry, and sends exactly
one notification to the record's `enableUserId`. -/
theorem c4_request_approval (folder : Folder) (rec : CurationRec) (u : User)
    (eu : Nat) (now : Nat)
    (hc : folder.curation = some rec) (he : rec.enabled = true)
    (hs : rec.status = CONSTRUCTION) (heu : rec.enableUserId = some eu) :
    ∃ r, setCuration folder u { enabled := none, status := some REQUESTED } now =
        Except.ok r ∧
      r.curation.requestUserId = some u.id ∧
      r.folder.accessUsers = folder.accessUsers.map makeReadOnlyEntry ∧
      r.folder.accessGroups = folder.accessGroups.map makeReadOnlyEntry ∧
      (∃ e, r.curation.timeline = some (rec.timeline.getD [] ++ [e]) ∧
        e.text = "requested approval") ∧
      r.notifications =
        [{ recipient := eu,
           subject := "REQUEST FOR APPROVAL: " ++ folder.name,
           template := "curation.requested.mako" }] := by
  have hcall : setCuration folder u { enabled := none, status := some REQUESTED } now =
      Except.ok (saveResult (applyTransitions u now folder rec
        { rec with status := REQUESTED })) := by
    simp [setCuration, hc, updateEnabled, updateStatus, hs]
  have hA : applyTransitions u now folder rec { rec with status := REQUESTED } =
      { folder := makeReadOnly folder
        curation := addTimeline u now rec
          { rec with status := REQUESTED, requestUserId := some u.id }
          "requested approval"
        notifications := sendMail rec.enableUserId
          ("REQUEST FOR APPROVAL: " ++ folder.name)
          "curation.requested.mako" } := by
    simp [applyTransitions, he, hs]
  refine ⟨_, hcall, ?_, ?_, ?_, ?_, ?_⟩
  · rw [hA]; simp [saveResult, addTimeline]
  · rw [hA]; simp [saveResult, makeReadOnly]
  · rw [hA]; simp [saveResult, makeReadOnly]
  · refine ⟨mkEntry u now rec
      { rec with status := REQUESTED, requestUserId := some u.id }
      "requested approval", ?_, rfl⟩
    rw [hA]; simp [saveResult, addTimeline]
  · rw [hA]; simp [saveResult, sendMail, heu]

/-- Witness for `c4_request_approval`: the non-admin contributor requests
approval on the enabled construction folder. -/
theorem c4_request_approval_witness :
    ∃ r, setCuration exFolderEnabled exUserBob
        { enabled := none, status := some REQUESTED } 5 = Except.ok r ∧
      r.curation.requestUserId = some exUserBob.id ∧
      r.folder.accessUsers = exFolderEnabled.accessUsers.map makeReadOnlyEntry ∧
      r.folder.accessGroups = exFolderEnabled.accessGroups.map makeReadOnlyEntry ∧
      (∃ e, r.curation.timeline = some (exRecEnabled.timeline.getD [] ++ [e]) ∧
        e.text = "requested approval") ∧
      r.notifications =
        [{ recipient := 8,
           subject := "REQUEST FOR APPROVAL: " ++ exFolderEnabled.name,
           template := "curation.requested.mako" }] :=
  c4_request_approval exFolderEnabled exRecEnabled exUserBob 8 5 rfl rfl rfl rfl

/-- The `approve` transition in isolation: an admin moving an enabled
record from `requested` to `approved` makes the folder public, leaves the
access lists and name alone, and saves the updated record. -/
theorem approve_call (folder : Folder) (rec : CurationRec) (u : User)
    (n : Nat) (hc : folder.curation = some rec) (he : rec.enabled = true)
    (hs : rec.status = REQUESTED) (ha : u.admin = true) :
    ∃ r, setCuration folder u { enabled := none, status := some APPROVED } n =
        Except.ok r ∧
      r.folder.curation = some r.curation ∧
      r.curation.enabled = true ∧
      r.curation.status = APPROVED ∧
      r.folder.public = true ∧
      r.folder.name = folder.name ∧
      r.folder.accessUsers = folder.accessUsers ∧
      r.folder.accessGroups = folder.accessGroups := by
  have hcall : setCuration folder u { enabled := none, status := some APPROVED } n =
      Except.ok (saveResult (applyTransitions u n folder rec
        { rec with status := APPROVED })) := by
    simp [setCuration, hc, updateEnabled, updateStatus, hs, ha]
  have hA : applyTransitions u n folder rec { rec with status := APPROVED } =
      { folder := { folder with public := true }
        curation := addTimeline u n rec
          { rec with status := APPROVED, reviewUserId := some u.id }
          "approved request"
        notifications := sendMail rec.requestUserId
          ("APPROVED: " ++ folder.name) "curation.approved.mako" } := by
    simp [applyTransitions, he, hs]
  refine ⟨_, hcall, ?_, ?_, ?_, ?_, ?_, ?_, ?_⟩ <;> rw [hA] <;>
    simp [saveResult, addTimeline, he]

/-- The `reopen` transition in isolation: an admin moving an enabled record
from `approved` back to `construction` makes the folder non-public,
upgrades every read-level access entry to write, and sends nothing. -/
theorem reopen_call (folder : Folder) (rec : CurationRec) (u : User)
    (n : Nat) (hc : folder.curation = some rec) (he : rec.enabled = true)
    (hs : rec.status = APPROVED) (ha : u.admin = true) :
    ∃ r, setCuration folder u { enabled := none, status := some CONSTRUCTION } n =
        Except.ok r ∧
      r.curation.status = CONSTRUCTION ∧
      r.folder.public = false ∧
      r.folder.accessUsers = folder.accessUsers.map makeWriteableEntry ∧
      r.folder.accessGroups = folder.accessGroups.map makeWriteableEntry ∧
      r.notifications = [] := by
  have hcall : setCuration folder u { enabled := none, status := some CONSTRUCTION } n =
      Except.ok (saveResult (applyTransitions u n folder rec
        { rec with status := CONSTRUCTION })) := by
    simp [setCuration, hc, updateEnabled, updateStatus, hs, ha]
  have hA : applyTransitions u n folder rec { rec with status := CONSTRUCTION } =
      { folder := makeWriteable { folder with public := false }
        curation := addTimeline u n rec { rec with status := CONSTRUCTION }
          "reopened folder"
        notifications := [] } := by
    simp [applyTransitions, he, hs]
  refine ⟨_, hcall, ?_, ?_, ?_, ?_, ?_⟩ <;> rw [hA] <;>
    simp [saveResult, addTimeline, makeWriteable]

/-- C7: on an enabled record in `requested`, an admin approval followed by
an admin reopen returns the status to `construction`, sets the folder
non-public, sends no notification on the reopen, and upgrades every
read-level access entry (in particular those the original request had
downgraded from write) back to write. -/
theorem c7_approve_then_reopen (folder : Folder) (rec : CurationRec)
    (u1 u2 : User) (n1 n2 : Nat)
    (hc : folder.curation = some rec) (he : rec.enabled = true)
    (hs : rec.status = REQUESTED) (ha1 : u1.admin = true)
    (ha2 : u2.admin = true) :
    ∃ r1 r2,
      setCuration folder u1 { enabled := none, status := some APPROVED } n1 =
        Except.ok r1 ∧
      setCuration r1.folder u2 { enabled := none, status := some CONSTRUCTION } n2 =
        Except.ok r2 ∧
      r2.curation.status = CONSTRUCTION ∧
      r2.folder.public = false ∧
      r2.notifications = [] ∧
      r2.folder.accessUsers = folder.accessUsers.map makeWriteableEntry ∧
      r2.folder.accessGroups = folder.accessGroups.map makeWriteableEntry ∧
      (∀ a ∈ folder.accessUsers, a.level = AccessLevel.read →
        { id := a.id, level := AccessLevel.write } ∈ r2.folder.accessUsers) ∧
      (∀ a ∈ folder.accessGroups, a.level = AccessLevel.read →
        { id := a.id, level := AccessLevel.write } ∈ r2.folder.accessGroups) := by
  obtain ⟨r1, hcall1, hsv1, hen1, hst1, hpub1, hnm1, hau1, hag1⟩ :=
    approve_call folder rec u1 n1 hc he hs ha1
  obtain ⟨r2, hcall2, hst2, hpub2, hau2, hag2, hnot2⟩ :=
    reopen_call r1.folder r1.curation u2 n2 hsv1 hen1 hst1 ha2
  refine ⟨r1, r2, hcall1, hcall2, hst2, hpub2, hnot2, ?_, ?_, ?_, ?_⟩
  · rw [hau2, hau1]
  · rw [hag2, hag1]
  · intro a haU hlv
    rw [hau2, hau1]
    have hent : makeWriteableEntry a =
        { id := a.id, level := AccessLevel.write } := by
      simp [makeWriteableEntry, hlv]
    rw [← hent]
    exact List.mem_map_of_mem _ haU
  · intro a haG hlv
    rw [hag2, hag1]
    have hent : makeWriteableEntry a =
        { id := a.id, level := AccessLevel.write } := by
      simp [makeWriteableEntry, hlv]
    rw [← hent]
    exact List.mem_map_of_mem _ haG

/-- Witness for `c7_approve_then_reopen` on the pending-request folder. -/
theorem c7_approve_then_reopen_witness :
    ∃ r1 r2,
      setCuration exFolderRequested exUserAlice
        { enabled := none, status := some APPROVED } 1 = Except.ok r1 ∧
      setCuration r1.folder exUserAlice
        { enabled := none, status := some CONSTRUCTION } 2 = Except.ok r2 ∧
      r2.curation.status = CONSTRUCTION ∧
      r2.folder.public = false ∧
      r2.notifications = [] ∧
      r2.folder.accessUsers =
        exFolderRequested.accessUsers.map makeWriteableEntry ∧
      r2.folder.accessGroups =
        exFolderRequested.accessGroups.map makeWriteableEntry ∧
      (∀ a ∈ exFolderRequested.accessUsers, a.level = AccessLevel.read →
        { id := a.id, level := AccessLevel.write } ∈ r2.folder.accessUsers) ∧
      (∀ a ∈ exFolderRequested.accessGroups, a.level = AccessLevel.read →
        { id := a.id, level := AccessLevel.write } ∈ r2.folder.accessGroups) :=
  c7_approve_then_reopen exFolderRequested exRecRequested exUserAlice
    exUserAlice 1 2 rfl rfl rfl rfl rfl

/-- The record's `requestUserId` after the transition blocks: set to the
actor exactly when the request-approval block fires, untouched otherwise. -/
theorem applyTransitions_requestUserId (u : User) (n : Nat) (f : Folder)
    (oldCur cur : CurationRec) :
    (applyTransitions u n f oldCur cur).curation.requestUserId =
      if cur.enabled = true ∧ oldCur.status = CONSTRUCTION ∧
          cur.status = REQUESTED
        then some u.id else cur.requestUserId := by
  simp only [applyTransitions]
  split_ifs <;> simp_all [addTimeline]

/-- C8: if a first status-only call succeeds and a second call resubmits
the same status value and also succeeds, the second call changes nothing:
same curation record, same folder (so no access-level or public change, no
timeline entry), and no notification. -/
theorem c8_idempotent_status (folder : Folder) (u1 u2 : User) (s : String)
    (n1 n2 : Nat) (r1 r2 : EngineResult)
    (h1 : setCuration folder u1 { enabled := none, status := some s } n1 =
      Except.ok r1)
    (h2 : setCuration r1.folder u2 { enabled := none, status := some s } n2 =
      Except.ok r2) :
    r2.curation = r1.curation ∧ r2.folder = r1.folder ∧
      r2.notifications = [] := by
  have hst1 : r1.curation.status = s :=
    setCuration_ok_status folder u1 s none n1 r1 h1
  have hsv1 : r1.folder.curation = some r1.curation :=
    setCuration_ok_save folder u1 _ n1 r1 h1
  obtain ⟨cur1, cur2, hu1, hu2, hr⟩ :=
    setCuration_ok_elim r1.folder u2 { enabled := none, status := some s }
      n2 r2 h2
  have hcur0 : r1.folder.curation.getD defaultCuration = r1.curation := by
    rw [hsv1]; rfl
  rw [hcur0] at hu1 hr
  have hu1a : updateEnabled u2 none r1.curation = Except.ok cur1 := hu1
  have hu2a : updateStatus u2 (some s) cur1 = Except.ok cur2 := hu2
  have hc1 : cur1 = r1.curation := updateEnabled_ok_none u2 r1.curation cur1 hu1a
  subst hc1
  have hc2 : cur2 = { r1.curation with status := s } :=
    updateStatus_ok_some u2 s r1.curation cur2 hu2a
  have hc2a : cur2 = r1.curation := by
    rw [hc2, ← hst1]
  subst hc2a
  rw [applyTransitions_self] at hr
  have hfold : ({ r1.folder with curation := some r1.curation } : Folder) =
      r1.folder :=
    folder_set_curation_self r1.folder r1.curation hsv1
  rw [hr]
  simp [saveResult, hfold]

/-- Witness for `c8_idempotent_status`: an admin submits `requested` twice
on the pending-request folder. -/
theorem c8_idempotent_status_witness :
    (okOrDefault (setCuration
        (okOrDefault (setCuration exFolderRequested exUserAlice
          { enabled := none, status := some REQUESTED } 1)).folder
        exUserAlice { enabled := none, status := some REQUESTED } 2)).curation =
      (okOrDefault (setCuration exFolderRequested exUserAlice
        { enabled := none, status := some REQUESTED } 1)).curation ∧
    (okOrDefault (setCuration
        (okOrDefault (setCuration exFolderRequested exUserAlice
          { enabled := none, status := some REQUESTED } 1)).folder
        exUserAlice { enabled := none, status := some REQUESTED } 2)).folder =
      (okOrDefault (setCuration exFolderRequested exUserAlice
        { enabled := none, status := some REQUESTED } 1)).folder ∧
    (okOrDefault (setCuration
        (okOrDefault (setCuration exFolderRequested exUserAlice
          { enabled := none, status := some REQUESTED } 1)).folder
        exUserAlice { enabled := none, status := some REQUESTED } 2)).notifications = [] :=
  c8_idempotent_status exFolderRequested exUserAlice exUserAlice REQUESTED
    1 2 _ _ rfl rfl

/-- The `disable` transition in isolation: an admin turning `enabled` off
appends one `disabled curation` entry and changes nothing else: status,
user-id fields, the folder's public flag and both access lists are
untouched, and nothing is sent. -/
theorem disable_call (folder : Folder) (rec : CurationRec) (u : User)
    (n : Nat) (hc : folder.curation = some rec) (he : rec.enabled = true)
    (ha : u.admin = true) :
    ∃ r, setCuration folder u { enabled := some false, status := none } n =
        Except.ok r ∧
      r.folder.curation = some r.curation ∧
      r.curation.enabled = false ∧
      r.curation.status = rec.status ∧
      r.curation.enableUserId = rec.enableUserId ∧
      r.curation.requestUserId = rec.requestUserId ∧
      r.curation.reviewUserId = rec.reviewUserId ∧
      r.folder.public = folder.public ∧
      r.folder.name = folder.name ∧
      r.folder.accessUsers = folder.accessUsers ∧
      r.folder.accessGroups = folder.accessGroups ∧
      (∃ e, r.curation.timeline = some (rec.timeline.getD [] ++ [e]) ∧
        e.text = "disabled curation") ∧
      r.notifications = [] := by
  have hcall : setCuration folder u { enabled := some false, status := none } n =
      Except.ok (saveResult (applyTransitions u n folder rec
        { rec with enabled := false })) := by
    simp [setCuration, hc, updateEnabled, updateStatus, ha]
  have hA : applyTransitions u n folder rec { rec with enabled := false } =
      { folder := folder
        curation := addTimeline u n rec { rec with enabled := false }
          "disabled curation"
        notifications := [] } := by
    simp [applyTransitions, he]
  refine ⟨_, hcall, ?_, ?_, ?_, ?_, ?_, ?_, ?_, ?_, ?_, ?_, ?_, ?_⟩
  · rw [hA]; simp [saveResult]
  · rw [hA]; simp [saveResult, addTimeline]
  · rw [hA]; simp [saveResult, addTimeline]
  · rw [hA]; simp [saveResult, addTimeline]
  · rw [hA]; simp [saveResult, addTimeline]
  · rw [hA]; simp [saveResult, addTimeline]
  · rw [hA]; simp [saveResult]
  · rw [hA]; simp [saveResult]
  · rw [hA]; simp [saveResult]
  · rw [hA]; simp [saveResult]
  · refine ⟨mkEntry u n rec { rec with enabled := false } "disabled curation",
      ?_, rfl⟩
    rw [hA]; simp [saveResult, addTimeline]
  · rw [hA]; simp [saveResult]

/-- The `enable` update in isolation: an admin turning `enabled` on leaves
the status and any pending `requestUserId` untouched (only the enable
block can fire, and it does not touch them). -/
theorem enable_call (folder : Folder) (rec : CurationRec) (u : User)
    (n : Nat) (hc : folder.curation = some rec) (ha : u.admin = true) :
    ∃ r, setCuration folder u { enabled := some true, status := none } n =
        Except.ok r ∧
      r.curation.enabled = true ∧
      r.curation.status = rec.status ∧
      r.curation.requestUserId = rec.requestUserId := by
  have hcall : setCuration folder u { enabled := some true, status := none } n =
      Except.ok (saveResult (applyTransitions u n folder rec
        { rec with enabled := true })) := by
    simp [setCuration, hc, updateEnabled, updateStatus, ha]
  have hne : ¬ (rec.status = CONSTRUCTION ∧ rec.status = REQUESTED) := by
    rintro ⟨a, b⟩
    exact construction_ne_requested (a.symm.trans b)
  refine ⟨_, hcall, ?_, ?_, ?_⟩
  · simp [saveResult, applyTransitions_curation_enabled]
  · simp [saveResult, applyTransitions_curation_status]
  · simp [saveResult, applyTransitions_requestUserId, hne]

/-- C10: an admin disabling curation changes only the `enabled` flag and
the timeline (one `disabled curation` entry): status, `requestUserId`,
`reviewUserId`, the folder's public flag and both access lists are
untouched and nothing is sent; a later admin re-enable still leaves the
status and the pending `requestUserId` in place, so a `requested` record
keeps its pending request across a disable/re-enable cycle. -/
theorem c10_disable_frame (folder : Folder) (rec : CurationRec)
    (u1 u2 : User) (n1 n2 : Nat)
    (hc : folder.curation = some rec) (he : rec.enabled = true)
    (ha1 : u1.admin = true) (ha2 : u2.admin = true) :
    ∃ r1, setCuration folder u1 { enabled := some false, status := none } n1 =
        Except.ok r1 ∧
      r1.curation.status = rec.status ∧
      r1.curation.requestUserId = rec.requestUserId ∧
      r1.curation.reviewUserId = rec.reviewUserId ∧
      r1.folder.public = folder.public ∧
      r1.folder.accessUsers = folder.accessUsers ∧
      r1.folder.accessGroups = folder.accessGroups ∧
      (∃ e, r1.curation.timeline = some (rec.timeline.getD [] ++ [e]) ∧
        e.text = "disabled curation") ∧
      r1.notifications = [] ∧
      ∃ r2, setCuration r1.folder u2 { enabled := some true, status := none } n2 =
          Except.ok r2 ∧
        r2.curation.status = rec.status ∧
        r2.curation.requestUserId = rec.requestUserId := by
  obtain ⟨r1, hcall1, hsv1, hen1, hst1, heu1, hrq1, hrv1, hpub1, hnm1, hau1,
    hag1, hent1, hnot1⟩ := disable_call folder rec u1 n1 hc he ha1
  obtain ⟨r2, hcall2, hen2, hst2, hrq2⟩ :=
    enable_call r1.folder r1.curation u2 n2 hsv1 ha2
  exact ⟨r1, hcall1, hst1, hrq1, hrv1, hpub1, hau1, hag1, hent1, hnot1,
    r2, hcall2, hst2.trans hst1, hrq2.trans hrq1⟩

/-- Witness for `c10_disable_frame`: disabling then re-enabling curation on
the pending-request folder. -/
theorem c10_disable_frame_witness :
    ∃ r1, setCuration exFolderRequested exUserAlice
        { enabled := some false, status := none } 1 = Except.ok r1 ∧
      r1.curation.status = exRecRequested.status ∧
      r1.curation.requestUserId = exRecRequested.requestUserId ∧
      r1.curation.reviewUserId = exRecRequested.reviewUserId ∧
      r1.folder.public = exFolderRequested.public ∧
      r1.folder.accessUsers = exFolderRequested.accessUsers ∧
      r1.folder.accessGroups = exFolderRequested.accessGroups ∧
      (∃ e, r1.curation.timeline =
          some (exRecRequested.timeline.getD [] ++ [e]) ∧
        e.text = "disabled curation") ∧
      r1.notifications = [] ∧
      ∃ r2, setCuration r1.folder exUserAlice
          { enabled := some true, status := none } 2 = Except.ok r2 ∧
        r2.curation.status = exRecRequested.status ∧
        r2.curation.requestUserId = exRecRequested.requestUserId :=
  c10_disable_frame exFolderRequested exRecRequested exUserAlice exUserAlice
    1 2 rfl rfl rfl rfl

end Curation
